import Mathlib

/-!
Shallow embedding of `src/core/lib/iomgr/timer_manager.cc` (gRPC timer
manager, thread-pool/waiter coordination protocol).

The mutex-protected globals of the source file become one record
`CoordState`.  Each lock-protected operation becomes a pure function on
that record.  Condition-variable operations (`gpr_cv_signal`,
`gpr_cv_broadcast` on `g_cv_wait`) and thread spawns are not state, so
they are returned as explicit outputs (`CvAction` lists, spawn counts).
At the points where the source releases the coordinator lock while the
operation is still in progress (the `gpr_cv_wait` sleep in `wait_until`,
the `ExecCtx::Flush` in `run_some_timers`), other threads may mutate the
coordinator; this interference is modelled by an explicit parameter
`env : CoordState → CoordState` applied at that point.

`uint64_t` counters (`g_timed_waiter_generation`, `g_wakeups`) are
modelled as `Nat` with arithmetic taken modulo `2 ^ 64`, so that the
wrap-around of `g_timed_waiter_generation - 1` at zero is faithful.
`int` counters (`g_thread_count`, `g_waiter_count`) are modelled as
`Int`.  `grpc_core::Timestamp` with its distinguished `InfFuture` value
is modelled by the inductive `Timestamp` below; only the order structure
of timestamps is relevant to this file.
-/

namespace TimerMgr

/-- `grpc_core::Timestamp`: either a finite monotonic time or
`Timestamp::InfFuture()`.  `InfFuture` is the largest representable
timestamp, so every finite time is strictly below it. -/
inductive Timestamp where
  | fin (t : Int) : Timestamp
  | inf : Timestamp
deriving DecidableEq, Repr

/-- Strict order on timestamps, mirroring `operator<` on
`grpc_core::Timestamp` (`InfFuture` is the maximum). -/
def Timestamp.ltb : Timestamp → Timestamp → Bool
  | Timestamp.fin a, Timestamp.fin b => decide (a < b)
  | Timestamp.fin _, Timestamp.inf => true
  | Timestamp.inf, _ => false

/-- `ltb` is irreflexive: no timestamp is strictly below itself (in
particular an equal deadline is not "earlier"). -/
theorem Timestamp.ltb_irrefl (t : Timestamp) : Timestamp.ltb t t = false := by
  cases t <;> simp [Timestamp.ltb]

/-- 2^64, the modulus of the `uint64_t` counters. -/
def U64 : Nat := 2 ^ 64

/-- `uint64_t` increment: `++g` on a 64-bit counter. -/
def u64add1 (g : Nat) : Nat := (g + 1) % U64

/-- `uint64_t` decrement by one: `g - 1` on a 64-bit counter
(wraps to `2^64 - 1` at zero). -/
def u64sub1 (g : Nat) : Nat := (g + (U64 - 1)) % U64

/-- The mutex-protected coordinator globals of `timer_manager.cc`.
`completed_threads` (a linked list of joinable thread handles in the
source) is modelled by its length. -/
structure CoordState where
  threaded : Bool
  start_threaded : Bool
  thread_count : Int
  waiter_count : Int
  completed_threads : Nat
  kicked : Bool
  has_timed_waiter : Bool
  timed_waiter_deadline : Timestamp
  timed_waiter_generation : Nat
  wakeups : Nat
deriving DecidableEq, Repr

/-- Operations performed on the wait/shutdown condition variables. -/
inductive CvAction where
  | signalWait
  | broadcastWait
  | signalShutdown
deriving DecidableEq, Repr

/-- `grpc_kick_poller`: under the lock, set `g_kicked`, clear
`g_has_timed_waiter`, reset `g_timed_waiter_deadline` to `InfFuture`,
increment `g_timed_waiter_generation`, and `gpr_cv_signal(&g_cv_wait)`. -/
def grpc_kick_poller (s : CoordState) : CoordState × List CvAction :=
  ({ s with kicked := true,
            has_timed_waiter := false,
            timed_waiter_deadline := Timestamp.inf,
            timed_waiter_generation := u64add1 s.timed_waiter_generation },
   [CvAction.signalWait])

/-- `start_timer_thread_and_unlock`: increment `g_waiter_count` and
`g_thread_count`, release the lock and start one OS thread (the spawn is
the `Nat` output; the source asserts `CHECK(g_threaded)` on entry). -/
def start_timer_thread_and_unlock (s : CoordState) : CoordState × Nat :=
  ({ s with waiter_count := s.waiter_count + 1,
            thread_count := s.thread_count + 1 }, 1)

/-- `start_threads`: if not `g_threaded`, set it and spawn one worker via
`start_timer_thread_and_unlock`; otherwise do nothing. -/
def start_threads (s : CoordState) : CoordState × Nat :=
  if s.threaded = false then
    start_timer_thread_and_unlock { s with threaded := true }
  else
    (s, 0)

/-- `stop_threads`: if `g_threaded`, clear it, broadcast `g_cv_wait` and
wait on `g_cv_shutdown` until `g_thread_count == 0`, joining exited
workers via `gc_completed_threads` as they appear.  The drain loop is a
blocking multi-thread interaction; it is summarised here by its net
effect: every live worker runs `timer_thread_cleanup` exactly once
(`--g_waiter_count; --g_thread_count`, deposit its handle) and all
deposited handles are joined, leaving `completed_threads` empty.  In
both branches the source then executes `g_wakeups = 0` (line 311 is
outside the `if (g_threaded)` block) before unlocking. -/
def stop_threads (s : CoordState) : CoordState × List CvAction :=
  if s.threaded = true then
    ({ s with threaded := false,
              thread_count := 0,
              waiter_count := s.waiter_count - s.thread_count,
              completed_threads := 0,
              wakeups := 0 },
     [CvAction.broadcastWait])
  else
    ({ s with wakeups := 0 }, [])

/-- `grpc_timer_manager_set_threading` (state part). -/
def grpc_timer_manager_set_threading (enabled : Bool) (s : CoordState) : CoordState :=
  if enabled then (start_threads s).1 else (stop_threads s).1

/-- `grpc_timer_manager_init`: reinitialise `g_threaded`,
`g_thread_count`, `g_waiter_count`, `g_completed_threads`,
`g_has_timed_waiter` and `g_timed_waiter_deadline` (the source touches
no other global here), then, if `g_start_threaded`, call
`start_threads`.  The `Nat` output counts spawned workers. -/
def grpc_timer_manager_init (s : CoordState) : CoordState × Nat :=
  let s1 : CoordState :=
    { s with threaded := false,
             thread_count := 0,
             waiter_count := 0,
             completed_threads := 0,
             has_timed_waiter := false,
             timed_waiter_deadline := Timestamp.inf }
  if s1.start_threaded = true then start_threads s1 else (s1, 0)

/-- Result of the timed-waiter election step of `wait_until`
(the body of `if (!g_kicked)` before `gpr_cv_wait`): the generation the
worker records locally in `my_timed_waiter_generation`, the coordinator
state after the election, and the absolute deadline passed to
`gpr_cv_wait` (the local variable `next` after possible mutation). -/
structure ElectResult where
  myGen : Nat
  state : CoordState
  sleepDeadline : Timestamp
deriving DecidableEq, Repr

/-- The election step of `wait_until`: initialise
`my_timed_waiter_generation = g_timed_waiter_generation - 1`; if
`next != InfFuture` and (`!g_has_timed_waiter || next <
g_timed_waiter_deadline`), take the timed-waiter role (increment the
generation, record it, set `g_has_timed_waiter` and the deadline);
otherwise, if an incumbent holds an earlier-or-equal deadline, replace
`next` by `InfFuture`. -/
def elect_timed_waiter (s : CoordState) (next : Timestamp) : ElectResult :=
  let my0 := u64sub1 s.timed_waiter_generation
  if next ≠ Timestamp.inf then
    if s.has_timed_waiter = false ∨ Timestamp.ltb next s.timed_waiter_deadline = true then
      { myGen := u64add1 s.timed_waiter_generation,
        state := { s with
          timed_waiter_generation := u64add1 s.timed_waiter_generation,
          has_timed_waiter := true,
          timed_waiter_deadline := next },
        sleepDeadline := next }
    else
      { myGen := my0, state := s, sleepDeadline := Timestamp.inf }
  else
    { myGen := my0, state := s, sleepDeadline := next }

/-- The election condition of `wait_until`, as the spec words it:
`next != ∞` and (`!has_timed_waiter` or `next < timed_waiter_deadline`). -/
def elect_cond (s : CoordState) (next : Timestamp) : Prop :=
  next ≠ Timestamp.inf ∧
    (s.has_timed_waiter = false ∨ Timestamp.ltb next s.timed_waiter_deadline = true)

instance (s : CoordState) (next : Timestamp) : Decidable (elect_cond s next) := by
  unfold elect_cond; infer_instance

/-- The post-sleep check of `wait_until`: if
`my_timed_waiter_generation == g_timed_waiter_generation`, this thread
was the timed waiter: increment `g_wakeups`, clear
`g_has_timed_waiter`, reset the deadline to `InfFuture`. -/
def wakeup_check (myGen : Nat) (s : CoordState) : CoordState :=
  if myGen = s.timed_waiter_generation then
    { s with wakeups := u64add1 s.wakeups,
             has_timed_waiter := false,
             timed_waiter_deadline := Timestamp.inf }
  else s

/-- The trailing `if (g_kicked)` of `wait_until`: consume a pending kick
(`grpc_timer_consume_kick()` is the `Bool` output) and clear `g_kicked`. -/
def consume_kick_step (s : CoordState) : CoordState × Bool :=
  if s.kicked = true then ({ s with kicked := false }, true) else (s, false)

/-- Result of `wait_until`: final coordinator state, the return value
(`true` to continue, `false` to exit the worker), whether `gpr_cv_wait`
was reached, whether `grpc_timer_consume_kick` was called, and the
deadline the sleep used (meaningful only when `slept`). -/
structure WaitResult where
  state : CoordState
  ret : Bool
  slept : Bool
  consumedKick : Bool
  sleepDeadline : Timestamp
deriving DecidableEq, Repr

/-- `wait_until`: under the lock, return `false` at once if
`!g_threaded`; if `g_kicked`, skip the election and the sleep entirely
and fall through to the kick-consumption step; otherwise run the
election, sleep on `g_cv_wait` (during which other threads may mutate
the coordinator: interference `env`), run the post-sleep generation
check, and finally consume any pending kick.  Returns `true` in every
threaded case. -/
def wait_until (env : CoordState → CoordState) (s : CoordState)
    (next : Timestamp) : WaitResult :=
  if s.threaded = false then
    { state := s, ret := false, slept := false, consumedKick := false,
      sleepDeadline := Timestamp.inf }
  else if s.kicked = true then
    { state := (consume_kick_step s).1, ret := true, slept := false,
      consumedKick := (consume_kick_step s).2, sleepDeadline := Timestamp.inf }
  else
    let e := elect_timed_waiter s next
    let sAwake := env e.state
    let sPost := wakeup_check e.myGen sAwake
    { state := (consume_kick_step sPost).1, ret := true, slept := true,
      consumedKick := (consume_kick_step sPost).2,
      sleepDeadline := e.sleepDeadline }

/-- Result of `run_some_timers`: final coordinator state, number of
replacement workers spawned, number of `gpr_cv_signal(&g_cv_wait)`
calls. -/
structure RunResult where
  state : CoordState
  spawned : Nat
  signals : Nat
deriving DecidableEq, Repr

/-- `run_some_timers`: under the lock, decrement `g_waiter_count`; if it
reached 0 and `g_threaded`, spawn a replacement via
`start_timer_thread_and_unlock`; otherwise, if `!g_has_timed_waiter`,
signal the wait condition variable once, then unlock.  Outside the lock
flush the execution context (interference `env`: callbacks may re-enter
the coordinator, e.g. via `grpc_kick_poller`).  Re-lock, garbage-collect
completed threads (`gc_completed_threads` leaves the list empty), and
increment `g_waiter_count` again. -/
def run_some_timers (env : CoordState → CoordState) (s : CoordState) : RunResult :=
  if s.waiter_count - 1 = 0 ∧ s.threaded = true then
    { state :=
        { env ((start_timer_thread_and_unlock
            { s with waiter_count := s.waiter_count - 1 }).1) with
          completed_threads := 0,
          waiter_count :=
            (env ((start_timer_thread_and_unlock
              { s with waiter_count := s.waiter_count - 1 }).1)).waiter_count + 1 },
      spawned := (start_timer_thread_and_unlock
        { s with waiter_count := s.waiter_count - 1 }).2,
      signals := 0 }
  else
    { state :=
        { env { s with waiter_count := s.waiter_count - 1 } with
          completed_threads := 0,
          waiter_count :=
            (env { s with waiter_count := s.waiter_count - 1 }).waiter_count + 1 },
      spawned := 0,
      signals := if s.has_timed_waiter = false then 1 else 0 }

end TimerMgr

namespace TimerMgr

/-- C1: `grpc_kick_poller`, for every coordinator state, sets `kicked`,
clears `has_timed_waiter`, resets `timed_waiter_deadline` to the
infinite future, increments `timed_waiter_generation` by one (as a
64-bit counter) and signals (not broadcasts) the wait condition
variable; the record-update equality shows every other field
(`threaded`, `start_threaded`, `thread_count`, `waiter_count`,
`completed_threads`, `wakeups`) unchanged. -/
theorem claim_C1_kick_poller (s : CoordState) :
    grpc_kick_poller s =
      ({ s with kicked := true,
                has_timed_waiter := false,
                timed_waiter_deadline := Timestamp.inf,
                timed_waiter_generation := u64add1 s.timed_waiter_generation },
       [CvAction.signalWait]) := rfl

/-- C3 counterexample: the claim "stop when `threaded` is false leaves
every field, including `wakeups`, unchanged" fails at the concrete state
with `threaded = false` and `wakeups = 5`: `stop_threads` changes the
state (it zeroes `wakeups`). -/
theorem claim_C3_counterexample :
    (stop_threads
      { threaded := false, start_threaded := false, thread_count := 0,
        waiter_count := 0, completed_threads := 0, kicked := false,
        has_timed_waiter := false, timed_waiter_deadline := Timestamp.inf,
        timed_waiter_generation := 0, wakeups := 5 }).1 ≠
      { threaded := false, start_threaded := false, thread_count := 0,
        waiter_count := 0, completed_threads := 0, kicked := false,
        has_timed_waiter := false, timed_waiter_deadline := Timestamp.inf,
        timed_waiter_generation := 0, wakeups := 5 } := by
  decide

/-- C3 (amended): `stop_threads` invoked while `threaded` is false
leaves every coordinator field unchanged except `wakeups`, which it
unconditionally resets to zero, and performs no condition-variable
operation. -/
theorem claim_C3_stop_not_threaded (s : CoordState) (h : s.threaded = false) :
    stop_threads s = ({ s with wakeups := 0 }, []) := by
  simp [stop_threads, h]

/-- C3 witness: the amended statement at a concrete non-threaded state. -/
theorem claim_C3_stop_not_threaded_witness :
    stop_threads
      { threaded := false, start_threaded := false, thread_count := 0,
        waiter_count := 0, completed_threads := 0, kicked := false,
        has_timed_waiter := false, timed_waiter_deadline := Timestamp.inf,
        timed_waiter_generation := 0, wakeups := 5 } =
      ({ threaded := false, start_threaded := false, thread_count := 0,
         waiter_count := 0, completed_threads := 0, kicked := false,
         has_timed_waiter := false, timed_waiter_deadline := Timestamp.inf,
         timed_waiter_generation := 0, wakeups := 0 }, []) :=
  claim_C3_stop_not_threaded _ rfl

/-- A quiescent coordinator state used to instantiate theorems on
concrete inputs. -/
def s0 : CoordState :=
  { threaded := false, start_threaded := false, thread_count := 0,
    waiter_count := 0, completed_threads := 0, kicked := false,
    has_timed_waiter := false, timed_waiter_deadline := Timestamp.inf,
    timed_waiter_generation := 0, wakeups := 0 }

/-- `s0` with the pool active. -/
def sThr : CoordState := { s0 with threaded := true }

/-- `s0` with the pool active and a pending kick. -/
def sKick : CoordState := { s0 with threaded := true, kicked := true }

/-- `s0` with the pool active and an incumbent timed waiter holding
deadline 2. -/
def sInc : CoordState :=
  { s0 with threaded := true, has_timed_waiter := true,
            timed_waiter_deadline := Timestamp.fin 2 }

/-- `consume_kick_step` always leaves `kicked` clear. -/
theorem consume_kick_step_kicked (t : CoordState) :
    (consume_kick_step t).1.kicked = false := by
  unfold consume_kick_step
  split
  · rfl
  · rename_i h
    simpa using h

/-- `consume_kick_step` reports consumption exactly when a kick was
pending. -/
theorem consume_kick_step_snd (t : CoordState) :
    (consume_kick_step t).2 = t.kicked := by
  unfold consume_kick_step
  split
  · rename_i h; exact h.symm
  · rename_i h
    simpa using (Bool.not_eq_true t.kicked).mp h |>.symm

/-- The post-sleep generation check never touches `kicked`. -/
theorem wakeup_check_kicked (m : Nat) (t : CoordState) :
    (wakeup_check m t).kicked = t.kicked := by
  unfold wakeup_check
  split <;> rfl

/-- C2: in `wait_until` with `threaded` and no pending kick, the worker
takes the timed-waiter role iff `next ≠ ∞` and (`¬has_timed_waiter` or
`next < timed_waiter_deadline`); taking it increments the generation,
records that value as its own, sets `has_timed_waiter` and the deadline
to `next`; a loser keeps the sentinel generation and changes nothing;
when an incumbent holds an earlier-or-equal deadline the sleep deadline
becomes infinite, so an equal deadline never displaces the incumbent;
and in that threaded, unkicked case `wait_until` is exactly the
election, the interfered sleep, the generation check and the kick
consumption. -/
theorem claim_C2_election (s : CoordState) (next : Timestamp) :
    (elect_cond s next →
      elect_timed_waiter s next =
        { myGen := u64add1 s.timed_waiter_generation,
          state := { s with
            timed_waiter_generation := u64add1 s.timed_waiter_generation,
            has_timed_waiter := true,
            timed_waiter_deadline := next },
          sleepDeadline := next }) ∧
    (¬ elect_cond s next →
      (elect_timed_waiter s next).state = s ∧
      (elect_timed_waiter s next).myGen = u64sub1 s.timed_waiter_generation) ∧
    (next ≠ Timestamp.inf → s.has_timed_waiter = true →
      Timestamp.ltb next s.timed_waiter_deadline = false →
      (elect_timed_waiter s next).sleepDeadline = Timestamp.inf) ∧
    (s.has_timed_waiter = true → next = s.timed_waiter_deadline →
      (elect_timed_waiter s next).state = s) ∧
    (∀ env : CoordState → CoordState, s.threaded = true → s.kicked = false →
      wait_until env s next =
        { state := (consume_kick_step (wakeup_check
              (elect_timed_waiter s next).myGen
              (env (elect_timed_waiter s next).state))).1,
          ret := true, slept := true,
          consumedKick := (consume_kick_step (wakeup_check
              (elect_timed_waiter s next).myGen
              (env (elect_timed_waiter s next).state))).2,
          sleepDeadline := (elect_timed_waiter s next).sleepDeadline }) := by
  refine ⟨?_, ?_, ?_, ?_, ?_⟩
  · rintro ⟨h1, h2⟩
    simp [elect_timed_waiter, h1, h2]
  · intro h
    by_cases hn : next = Timestamp.inf
    · simp [elect_timed_waiter, hn]
    · have hb : ¬ (s.has_timed_waiter = false ∨
          Timestamp.ltb next s.timed_waiter_deadline = true) :=
        fun hb2 => h ⟨hn, hb2⟩
      simp [elect_timed_waiter, hn, hb]
  · intro h1 h2 h3
    simp [elect_timed_waiter, h1, h2, h3]
  · intro h1 h2
    by_cases hn : next = Timestamp.inf
    · simp [elect_timed_waiter, hn]
    · have h3 : Timestamp.ltb next s.timed_waiter_deadline = false := by
        rw [← h2]; exact Timestamp.ltb_irrefl next
      simp [elect_timed_waiter, hn, h1, h3]
  · intro env ht hk
    simp [wait_until, ht, hk]

/-- C2 witness: the election at concrete states: a fresh worker with
deadline 3 wins against no incumbent; with candidate `∞` the worker
keeps the sentinel and changes nothing; against an incumbent at 2, a
candidate at 5 sleeps with infinite deadline, and a candidate exactly at
2 does not displace the incumbent; and `wait_until` at a threaded,
unkicked state decomposes through the election. -/
theorem claim_C2_election_witness :
    elect_timed_waiter sThr (Timestamp.fin 3) =
      { myGen := u64add1 sThr.timed_waiter_generation,
        state := { sThr with
          timed_waiter_generation := u64add1 sThr.timed_waiter_generation,
          has_timed_waiter := true,
          timed_waiter_deadline := Timestamp.fin 3 },
        sleepDeadline := Timestamp.fin 3 } ∧
    ((elect_timed_waiter sThr Timestamp.inf).state = sThr ∧
      (elect_timed_waiter sThr Timestamp.inf).myGen =
        u64sub1 sThr.timed_waiter_generation) ∧
    (elect_timed_waiter sInc (Timestamp.fin 5)).sleepDeadline = Timestamp.inf ∧
    (elect_timed_waiter sInc (Timestamp.fin 2)).state = sInc ∧
    wait_until id sThr (Timestamp.fin 3) =
      { state := (consume_kick_step (wakeup_check
            (elect_timed_waiter sThr (Timestamp.fin 3)).myGen
            (id (elect_timed_waiter sThr (Timestamp.fin 3)).state))).1,
        ret := true, slept := true,
        consumedKick := (consume_kick_step (wakeup_check
            (elect_timed_waiter sThr (Timestamp.fin 3)).myGen
            (id (elect_timed_waiter sThr (Timestamp.fin 3)).state))).2,
        sleepDeadline := (elect_timed_waiter sThr (Timestamp.fin 3)).sleepDeadline } :=
  ⟨(claim_C2_election sThr (Timestamp.fin 3)).1 (by decide),
   (claim_C2_election sThr Timestamp.inf).2.1 (by decide),
   (claim_C2_election sInc (Timestamp.fin 5)).2.2.1 (by decide) (by decide) (by decide),
   (claim_C2_election sInc (Timestamp.fin 2)).2.2.2.1 (by decide) (by decide),
   (claim_C2_election sThr (Timestamp.fin 3)).2.2.2.2 id rfl rfl⟩

/-- C4: `start_threads` is idempotent: when `threaded` is already true
it changes nothing and spawns nothing; when `threaded` is false it sets
`threaded`, increments `thread_count` and `waiter_count` by one and
spawns one worker; two consecutive calls yield the same state as one,
and together spawn exactly one worker when starting from an unthreaded
state (zero from a threaded one). -/
theorem claim_C4_start_idempotent (s : CoordState) :
    (s.threaded = true → start_threads s = (s, 0)) ∧
    (s.threaded = false →
      start_threads s =
        ({ s with threaded := true,
                  thread_count := s.thread_count + 1,
                  waiter_count := s.waiter_count + 1 }, 1)) ∧
    (start_threads (start_threads s).1).1 = (start_threads s).1 ∧
    (start_threads s).2 + (start_threads (start_threads s).1).2 =
      (if s.threaded = true then 0 else 1) := by
  cases ht : s.threaded <;>
    simp [start_threads, start_timer_thread_and_unlock, ht]

/-- C4 witness: both branches at concrete states: starting an already
threaded pool is a no-op with zero spawns; starting an unthreaded pool
flips `threaded` and spawns one worker. -/
theorem claim_C4_start_idempotent_witness :
    start_threads sThr = (sThr, 0) ∧
    start_threads s0 =
      ({ s0 with threaded := true,
                 thread_count := s0.thread_count + 1,
                 waiter_count := s0.waiter_count + 1 }, 1) :=
  ⟨(claim_C4_start_idempotent sThr).1 rfl,
   (claim_C4_start_idempotent s0).2.1 rfl⟩

/-- C5: every call to `stop_threads` returns with `wakeups = 0`
(whatever its initial value and whether the pool was threaded),
`start_threads` never modifies `wakeups`, and therefore
`set_threading(false); set_threading(true)` leaves `wakeups = 0`
immediately after the second call. -/
theorem claim_C5_wakeups_reset (s : CoordState) :
    (stop_threads s).1.wakeups = 0 ∧
    (∀ t : CoordState, (start_threads t).1.wakeups = t.wakeups) ∧
    (grpc_timer_manager_set_threading true
        (grpc_timer_manager_set_threading false s)).wakeups = 0 := by
  have h1 : ∀ u : CoordState, (stop_threads u).1.wakeups = 0 := by
    intro u; unfold stop_threads; split <;> rfl
  have h2 : ∀ t : CoordState, (start_threads t).1.wakeups = t.wakeups := by
    intro t; unfold start_threads start_timer_thread_and_unlock; split <;> rfl
  refine ⟨h1 s, h2, ?_⟩
  unfold grpc_timer_manager_set_threading
  simp [h1, h2]

/-- C6: `wait_until` returns `false` exactly when `threaded` is false at
entry; in that case it returns at once, without reaching the sleep and
without changing any coordinator field; in every threaded case it
returns `true`. -/
theorem claim_C6_wait_until_return (env : CoordState → CoordState)
    (s : CoordState) (next : Timestamp) :
    ((wait_until env s next).ret = false ↔ s.threaded = false) ∧
    (s.threaded = false →
      wait_until env s next =
        { state := s, ret := false, slept := false, consumedKick := false,
          sleepDeadline := Timestamp.inf }) ∧
    (s.threaded = true → (wait_until env s next).ret = true) := by
  cases ht : s.threaded <;>
    · unfold wait_until
      simp [ht]
      try (split <;> rfl)

/-- C6 witness: at an unthreaded state `wait_until` returns `false`
unchanged; at a threaded state it returns `true`. -/
theorem claim_C6_wait_until_return_witness :
    wait_until id s0 Timestamp.inf =
      { state := s0, ret := false, slept := false, consumedKick := false,
        sleepDeadline := Timestamp.inf } ∧
    (wait_until id sThr Timestamp.inf).ret = true :=
  ⟨(claim_C6_wait_until_return id s0 Timestamp.inf).2.1 rfl,
   (claim_C6_wait_until_return id sThr Timestamp.inf).2.2 rfl⟩

/-- C7: entering `wait_until` threaded with a pending kick skips the
election and the sleep: the generation, `has_timed_waiter`, the
deadline and `wakeups` are untouched (record equality), the kick is
consumed (`grpc_timer_consume_kick` called), `kicked` is cleared, and
the call returns `true`; more generally every threaded call returns
with `kicked` clear, and in the sleeping path the kick is consumed
exactly when one is pending on wakeup. -/
theorem claim_C7_kicked_short_circuit (env : CoordState → CoordState)
    (s : CoordState) (next : Timestamp) :
    (s.threaded = true → s.kicked = true →
      wait_until env s next =
        { state := { s with kicked := false }, ret := true, slept := false,
          consumedKick := true, sleepDeadline := Timestamp.inf }) ∧
    (s.threaded = true → (wait_until env s next).state.kicked = false) ∧
    (s.threaded = true → s.kicked = false →
      (wait_until env s next).consumedKick =
        (env (elect_timed_waiter s next).state).kicked) := by
  refine ⟨?_, ?_, ?_⟩
  · intro ht hk
    simp [wait_until, ht, hk, consume_kick_step]
  · intro ht
    unfold wait_until
    simp [ht]
    split
    · exact consume_kick_step_kicked _
    · exact consume_kick_step_kicked _
  · intro ht hk
    simp [wait_until, ht, hk, consume_kick_step_snd, wakeup_check_kicked]

/-- C7 witness: at a threaded state with a pending kick and candidate
deadline 1, `wait_until` only clears the kick and returns `true` without
sleeping; the threaded unkicked call also ends with `kicked` clear and
reports no consumption when none is pending. -/
theorem claim_C7_kicked_short_circuit_witness :
    wait_until id sKick (Timestamp.fin 1) =
      { state := { sKick with kicked := false }, ret := true, slept := false,
        consumedKick := true, sleepDeadline := Timestamp.inf } ∧
    (wait_until id sThr (Timestamp.fin 1)).state.kicked = false ∧
    (wait_until id sThr (Timestamp.fin 1)).consumedKick =
      (id (elect_timed_waiter sThr (Timestamp.fin 1)).state).kicked :=
  ⟨(claim_C7_kicked_short_circuit id sKick (Timestamp.fin 1)).1 rfl rfl,
   (claim_C7_kicked_short_circuit id sThr (Timestamp.fin 1)).2.1 rfl,
   (claim_C7_kicked_short_circuit id sThr (Timestamp.fin 1)).2.2 rfl rfl⟩

/-- C8: `run_some_timers`, with the calling worker counted in
`waiter_count` and with interference during the callback flush that does
not itself change `waiter_count`: it spawns exactly one replacement
worker iff the decremented `waiter_count` reached 0 while `threaded`;
otherwise it signals the wait condition variable exactly once iff
`has_timed_waiter` is false; it garbage-collects completed threads and
increments `waiter_count` back, so `waiter_count` is net unchanged when
no replacement is spawned (and net one higher when one is). -/
theorem claim_C8_run_some_timers (env : CoordState → CoordState)
    (s : CoordState) (_hcount : 1 ≤ s.waiter_count)
    (henv : ∀ t : CoordState, (env t).waiter_count = t.waiter_count) :
    ((run_some_timers env s).spawned = 1 ↔
      (s.waiter_count - 1 = 0 ∧ s.threaded = true)) ∧
    ((run_some_timers env s).spawned = 0 →
      ((run_some_timers env s).signals = 1 ↔ s.has_timed_waiter = false)) ∧
    ((run_some_timers env s).spawned = 0 →
      (run_some_timers env s).state.waiter_count = s.waiter_count) ∧
    ((run_some_timers env s).spawned = 1 →
      (run_some_timers env s).state.waiter_count = s.waiter_count + 1) ∧
    (run_some_timers env s).state.completed_threads = 0 := by
  by_cases hc : s.waiter_count - 1 = 0 ∧ s.threaded = true
  · simp only [run_some_timers]
    rw [if_pos hc]
    refine ⟨⟨fun _ => hc, fun _ => rfl⟩,
      fun h0 => by simp [start_timer_thread_and_unlock] at h0,
      fun h0 => by simp [start_timer_thread_and_unlock] at h0,
      fun _ => ?_, rfl⟩
    rw [henv]
    show s.waiter_count - 1 + 1 + 1 = s.waiter_count + 1
    omega
  · simp only [run_some_timers]
    rw [if_neg hc]
    refine ⟨⟨fun h0 => by simp at h0, fun hcc => absurd hcc hc⟩,
      fun _ => ?_, fun _ => ?_,
      fun h0 => by simp at h0, rfl⟩
    · cases hh : s.has_timed_waiter <;> simp [hh]
    · rw [henv]
      show s.waiter_count - 1 + 1 = s.waiter_count
      omega

/-- C8 witness: with one waiter left in a threaded pool a replacement is
spawned and `waiter_count` rises by one; with two waiters and no timed
waiter, no spawn happens, one signal is sent, and `waiter_count` is net
unchanged. -/
theorem claim_C8_run_some_timers_witness :
    (run_some_timers id { sThr with waiter_count := 1 }).spawned = 1 ∧
    (run_some_timers id { sThr with waiter_count := 2 }).signals = 1 ∧
    (run_some_timers id { sThr with waiter_count := 2 }).state.waiter_count =
      ({ sThr with waiter_count := 2 } : CoordState).waiter_count ∧
    (run_some_timers id { sThr with waiter_count := 1 }).state.waiter_count =
      ({ sThr with waiter_count := 1 } : CoordState).waiter_count + 1 :=
  ⟨((claim_C8_run_some_timers id { sThr with waiter_count := 1 }
      (by decide) (fun t => rfl)).1).mpr (by decide),
   ((claim_C8_run_some_timers id { sThr with waiter_count := 2 }
      (by decide) (fun t => rfl)).2.1 (by decide)).mpr (by decide),
   (claim_C8_run_some_timers id { sThr with waiter_count := 2 }
      (by decide) (fun t => rfl)).2.2.1 (by decide),
   (claim_C8_run_some_timers id { sThr with waiter_count := 1 }
      (by decide) (fun t => rfl)).2.2.2.1 (by decide)⟩

/-- C9: a worker that does not win the election records the sentinel
generation `timed_waiter_generation - 1` (64-bit wrap-around); as long
as the threads that run while it sleeps only ever increment the
generation (by election or by kick) — `k` increments in all, with the
spec's "overflow is ignored" proviso `k % 2^64 ≠ 2^64 - 1` — the
sentinel can never equal the generation observed on wakeup, so the
post-sleep check leaves the state untouched: such a worker neither
increments `wakeups` nor clears `has_timed_waiter`. -/
theorem claim_C9_generation_sentinel (s : CoordState) (next : Timestamp)
    (env : CoordState → CoordState) (k : Nat)
    (hk : k % U64 ≠ U64 - 1)
    (hlost : (elect_timed_waiter s next).myGen =
      u64sub1 s.timed_waiter_generation)
    (henv : (env (elect_timed_waiter s next).state).timed_waiter_generation =
      (s.timed_waiter_generation + k) % U64) :
    wakeup_check (elect_timed_waiter s next).myGen
        (env (elect_timed_waiter s next).state) =
      env (elect_timed_waiter s next).state := by
  have hU : U64 = 18446744073709551616 := by norm_num [U64]
  have hne : u64sub1 s.timed_waiter_generation ≠
      (s.timed_waiter_generation + k) % U64 := by
    unfold u64sub1
    simp only [hU] at hk ⊢
    omega
  unfold wakeup_check
  rw [hlost, henv, if_neg hne]

/-- C9 witness: a worker whose candidate deadline is `∞` loses the
election and keeps the sentinel; with no interference during its sleep
(`k = 0`) the post-sleep check changes nothing. -/
theorem claim_C9_generation_sentinel_witness :
    wakeup_check (elect_timed_waiter sThr Timestamp.inf).myGen
        (id (elect_timed_waiter sThr Timestamp.inf).state) =
      id (elect_timed_waiter sThr Timestamp.inf).state :=
  claim_C9_generation_sentinel sThr Timestamp.inf id 0
    (by decide) (by decide) (by decide)

/-- C10 counterexample: the claim "init resets `threaded`,
`thread_count`, `waiter_count`, ..." fails at a concrete state with
`start_threaded = true`: `grpc_timer_manager_init` then calls
`start_threads`, so it returns with `threaded = true` and
`thread_count = 1 ≠ 0`. -/
theorem claim_C10_counterexample :
    (grpc_timer_manager_init
        { s0 with start_threaded := true, thread_count := 7 }).1.threaded = true ∧
    (grpc_timer_manager_init
        { s0 with start_threaded := true, thread_count := 7 }).1.thread_count ≠ 0 := by
  decide

/-- C10 (amended): `grpc_timer_manager_init` empties
`completed_threads`, clears `has_timed_waiter`, resets
`timed_waiter_deadline` to the infinite future, and leaves `kicked`,
`wakeups`, `timed_waiter_generation` and `start_threaded` unchanged — a
pending kick or a nonzero `wakeups` survives into the new session.  It
first zeroes `threaded`, `thread_count` and `waiter_count`; when
`start_threaded` is false that reset state is the final state and no
worker is spawned, but when `start_threaded` is true init then starts
the pool, so it returns with `threaded = true`,
`thread_count = waiter_count = 1` and one worker spawned. -/
theorem claim_C10_init_frame (s : CoordState) :
    (grpc_timer_manager_init s).1.kicked = s.kicked ∧
    (grpc_timer_manager_init s).1.wakeups = s.wakeups ∧
    (grpc_timer_manager_init s).1.timed_waiter_generation =
      s.timed_waiter_generation ∧
    (grpc_timer_manager_init s).1.start_threaded = s.start_threaded ∧
    (grpc_timer_manager_init s).1.has_timed_waiter = false ∧
    (grpc_timer_manager_init s).1.timed_waiter_deadline = Timestamp.inf ∧
    (grpc_timer_manager_init s).1.completed_threads = 0 ∧
    (s.start_threaded = false →
      grpc_timer_manager_init s =
        ({ s with threaded := false, thread_count := 0, waiter_count := 0,
                  completed_threads := 0, has_timed_waiter := false,
                  timed_waiter_deadline := Timestamp.inf }, 0)) ∧
    (s.start_threaded = true →
      (grpc_timer_manager_init s).1.threaded = true ∧
      (grpc_timer_manager_init s).1.thread_count = 1 ∧
      (grpc_timer_manager_init s).1.waiter_count = 1 ∧
      (grpc_timer_manager_init s).2 = 1) := by
  cases hst : s.start_threaded <;>
    simp [grpc_timer_manager_init, start_threads,
      start_timer_thread_and_unlock, hst]

/-- C10 witness: a pending kick survives init whether or not the pool is
auto-started; with `start_threaded = false` init yields exactly the
reset state, and with `start_threaded = true` it returns threaded with
one spawned worker. -/
theorem claim_C10_init_frame_witness :
    grpc_timer_manager_init { s0 with kicked := true, wakeups := 3 } =
      ({ ({ s0 with kicked := true, wakeups := 3 } : CoordState) with
          threaded := false, thread_count := 0, waiter_count := 0,
          completed_threads := 0, has_timed_waiter := false,
          timed_waiter_deadline := Timestamp.inf }, 0) ∧
    ((grpc_timer_manager_init
        { s0 with start_threaded := true, kicked := true }).1.threaded = true ∧
      (grpc_timer_manager_init
        { s0 with start_threaded := true, kicked := true }).1.thread_count = 1 ∧
      (grpc_timer_manager_init
        { s0 with start_threaded := true, kicked := true }).1.waiter_count = 1 ∧
      (grpc_timer_manager_init
        { s0 with start_threaded := true, kicked := true }).2 = 1) :=
  ⟨(claim_C10_init_frame
      { s0 with kicked := true, wakeups := 3 }).2.2.2.2.2.2.2.1 rfl,
   (claim_C10_init_frame
      { s0 with start_threaded := true, kicked := true }).2.2.2.2.2.2.2.2 rfl⟩

end TimerMgr
